import Mathlib

/-!
Shallow embedding of `src/aws-healthscribe-frontend/src/App.jsx`: the
Client Interaction Controller of the HealthScribe single-page client.
The two event handlers `handleTranscription` and `handleQuestionAnswer`
are modelled as functions from the component state and the backend
outcome to a result that records the updated state, the network requests
issued, the alerts shown to the user, and the state held while the
request was outstanding.
-/

/-- JavaScript values as received from the backend (`response.data`) and as
stored in component state.  `undefined` is included because reading an
absent property yields it. -/
inductive Json where
  | null
  | undefined
  | bool (b : Bool)
  | num (n : Int)
  | str (s : String)
  | arr (elems : List Json)
  | obj (fields : List (String × Json))
  deriving Repr

/-- JavaScript truthiness, as used by `!selectedAudio`, `!summary` and
`!question` in the source's guards. -/
def Json.truthy : Json → Bool
  | .null => false
  | .undefined => false
  | .bool b => b
  | .num n => n != 0
  | .str s => s != ""
  | .arr _ => true
  | .obj _ => true

/-- JavaScript property access `v.k`: on `null` or `undefined` it throws a
TypeError (modelled as `Except.error`); on an object it returns the field or
`undefined` when absent; on any other value the property named here is
absent, so it yields `undefined`. -/
def Json.getProp : Json → String → Except Unit Json
  | .null, _ => .error ()
  | .undefined, _ => .error ()
  | .obj fields, k =>
      match fields.lookup k with
      | some v => .ok v
      | none => .ok .undefined
  | _, _ => .ok .undefined

/-- The component state: the five `useState` hooks of `App`. -/
structure SessionState where
  selectedAudio : String
  question : String
  answer : Json
  summary : Json
  loading : Bool
  deriving Repr

/-- The initial values passed to `useState` in the source. -/
def initialState : SessionState :=
  { selectedAudio := ""
    question := ""
    answer := Json.str ""
    summary := Json.null
    loading := false }

/-- A network request as issued by `axios.post(url, body)`. -/
structure Request where
  url : String
  body : List (String × Json)
  deriving Repr

/-- The `alert(...)` messages the component can show. -/
inductive Alert where
  /-- The alert text "Please select an audio file." -/
  | selectAudio
  /-- The alert text "Failed to process the audio file." -/
  | transcribeFailed
  /-- The alert text "Please complete transcription and enter a question." -/
  | completeTranscription
  /-- The alert text "Failed to fetch the answer." -/
  | answerFailed
  deriving Repr

/-- The observable outcome of running one handler: the final state, the
network requests issued, the alerts shown, and (when a call was made) the
component state while that call was outstanding. -/
structure StepResult where
  state : SessionState
  requests : List Request
  alerts : List Alert
  outstanding : Option SessionState
  deriving Repr

/-- `handleTranscription` from `App.jsx`: guard on `!selectedAudio`, else
`setLoading(true)`, POST `{ audioUrl: selectedAudio }` to the
start-transcription endpoint, on success `setSummary(response.data)`, on
failure alert, and `setLoading(false)` in `finally`.  The backend outcome
is passed in as `backend`. -/
def handleTranscription (s : SessionState) (backend : Except Unit Json) :
    StepResult :=
  if !(Json.str s.selectedAudio).truthy then
    { state := s, requests := [], alerts := [Alert.selectAudio],
      outstanding := none }
  else
    match backend with
    | .ok data =>
        { state := { s with summary := data, loading := false }
          requests := [{ url := "http://localhost:5000/start-transcription"
                         body := [("audioUrl", Json.str s.selectedAudio)] }]
          alerts := []
          outstanding := some { s with loading := true } }
    | .error _ =>
        { state := { s with loading := false }
          requests := [{ url := "http://localhost:5000/start-transcription"
                         body := [("audioUrl", Json.str s.selectedAudio)] }]
          alerts := [Alert.transcribeFailed]
          outstanding := some { s with loading := true } }

/-- `handleQuestionAnswer` from `App.jsx`: guard on `!summary || !question`,
else `setLoading(true)`, POST `{ question }` to the question-ans endpoint,
on success `setAnswer(response.data.answer)` (the property read may itself
throw and land in the catch), on failure alert, and `setLoading(false)` in
`finally`. -/
def handleQuestionAnswer (s : SessionState) (backend : Except Unit Json) :
    StepResult :=
  if !s.summary.truthy || !(Json.str s.question).truthy then
    { state := s, requests := [], alerts := [Alert.completeTranscription],
      outstanding := none }
  else
    match backend with
    | .ok data =>
        match data.getProp "answer" with
        | .ok v =>
            { state := { s with answer := v, loading := false }
              requests := [{ url := "http://localhost:5000/question-ans"
                             body := [("question", Json.str s.question)] }]
              alerts := []
              outstanding := some { s with loading := true } }
        | .error _ =>
            { state := { s with loading := false }
              requests := [{ url := "http://localhost:5000/question-ans"
                             body := [("question", Json.str s.question)] }]
              alerts := [Alert.answerFailed]
              outstanding := some { s with loading := true } }
    | .error _ =>
        { state := { s with loading := false }
          requests := [{ url := "http://localhost:5000/question-ans"
                         body := [("question", Json.str s.question)] }]
          alerts := [Alert.answerFailed]
          outstanding := some { s with loading := true } }

/-- A session state after a successful transcription: the first audio file
selected, its summary stored, and a question typed in. -/
def askReadyState : SessionState :=
  { selectedAudio := "s3://dax-health-transcribe/Sample_data.mp3"
    question := "What medication?"
    answer := Json.str ""
    summary := Json.obj [("status", Json.str "done"), ("text", Json.str "hello")]
    loading := false }

/-- A session state with the first audio file selected and nothing else done. -/
def audioSelectedState : SessionState :=
  { initialState with
      selectedAudio := "s3://dax-health-transcribe/Sample_data.mp3" }

/-- C1: for every session state in which `selectedAudio` is unset and every
backend behaviour, `handleTranscription` shows the "no audio selected"
alert, issues no network request, and returns the session state unchanged. -/
theorem startTranscription_validation (s : SessionState) (b : Except Unit Json)
    (h : s.selectedAudio = "") :
    handleTranscription s b =
      { state := s, requests := [], alerts := [Alert.selectAudio],
        outstanding := none } := by
  simp [handleTranscription, Json.truthy, h]

/-- Witness for C1: the initial session state has no audio selected. -/
theorem startTranscription_validation_witness :
    handleTranscription initialState (Except.ok (Json.str "d")) =
      { state := initialState, requests := [], alerts := [Alert.selectAudio],
        outstanding := none } :=
  startTranscription_validation initialState (Except.ok (Json.str "d")) rfl

/-- C2: for every session state in which `summary` is unset (still `null`)
or the question text is empty, `handleQuestionAnswer` shows the
"complete transcription and enter a question" alert, issues no network
request, and returns the session state unchanged. -/
theorem askQuestion_validation (s : SessionState) (b : Except Unit Json)
    (h : s.summary = Json.null ∨ s.question = "") :
    handleQuestionAnswer s b =
      { state := s, requests := [], alerts := [Alert.completeTranscription],
        outstanding := none } := by
  rcases h with h | h <;> simp [handleQuestionAnswer, Json.truthy, h]

/-- Witness for C2: the initial session state has `summary = null`. -/
theorem askQuestion_validation_witness :
    handleQuestionAnswer initialState (Except.ok (Json.str "d")) =
      { state := initialState, requests := [],
        alerts := [Alert.completeTranscription], outstanding := none } :=
  askQuestion_validation initialState (Except.ok (Json.str "d")) (Or.inl rfl)

/-- C3: for both handlers and every backend outcome, whenever a network
request was issued the final state has `loading = false`, and the state
held while the call was outstanding is exactly the input state with
`loading = true`. -/
theorem busy_lifecycle (s : SessionState) (b : Except Unit Json) :
    ((handleTranscription s b).requests ≠ [] →
        (handleTranscription s b).state.loading = false ∧
        (handleTranscription s b).outstanding =
          some { s with loading := true }) ∧
    ((handleQuestionAnswer s b).requests ≠ [] →
        (handleQuestionAnswer s b).state.loading = false ∧
        (handleQuestionAnswer s b).outstanding =
          some { s with loading := true }) := by
  constructor
  · intro hne
    cases hg : (Json.str s.selectedAudio).truthy with
    | false => simp [handleTranscription, hg] at hne
    | true => cases b <;> simp [handleTranscription, hg]
  · intro hne
    cases hg1 : s.summary.truthy with
    | false => simp [handleQuestionAnswer, hg1] at hne
    | true =>
        cases hg2 : (Json.str s.question).truthy with
        | false => simp [handleQuestionAnswer, hg1, hg2] at hne
        | true =>
            cases b with
            | ok data =>
                cases hp : data.getProp "answer" <;>
                  simp [handleQuestionAnswer, hg1, hg2, hp]
            | error e => simp [handleQuestionAnswer, hg1, hg2]

/-- Witness for C3: both handlers issue a request from a ready state, and
both clear `loading` afterwards. -/
theorem busy_lifecycle_witness :
    ((handleTranscription askReadyState
        (Except.ok (Json.str "d"))).state.loading = false ∧
      (handleTranscription askReadyState
        (Except.ok (Json.str "d"))).outstanding =
        some { askReadyState with loading := true }) ∧
    ((handleQuestionAnswer askReadyState
        (Except.ok (Json.str "d"))).state.loading = false ∧
      (handleQuestionAnswer askReadyState
        (Except.ok (Json.str "d"))).outstanding =
        some { askReadyState with loading := true }) :=
  ⟨(busy_lifecycle askReadyState (Except.ok (Json.str "d"))).1
      (by simp [handleTranscription, askReadyState, Json.truthy]),
   (busy_lifecycle askReadyState (Except.ok (Json.str "d"))).2
      (by simp [handleQuestionAnswer, askReadyState, Json.truthy,
                Json.getProp])⟩

/-- C4: with an audio file selected, a successful transcription call stores
the backend response body verbatim as `summary` and shows no alert. -/
theorem startTranscription_success_summary (s : SessionState) (data : Json)
    (h : s.selectedAudio ≠ "") :
    (handleTranscription s (Except.ok data)).state.summary = data ∧
    (handleTranscription s (Except.ok data)).alerts = [] := by
  simp [handleTranscription, Json.truthy, h]

/-- Witness for C4: scenario 1 of the spec, backend returns
`{"status":"done","text":"hello"}`. -/
theorem startTranscription_success_summary_witness :
    (handleTranscription audioSelectedState
        (Except.ok (Json.obj [("status", Json.str "done"),
          ("text", Json.str "hello")]))).state.summary =
      Json.obj [("status", Json.str "done"), ("text", Json.str "hello")] ∧
    (handleTranscription audioSelectedState
        (Except.ok (Json.obj [("status", Json.str "done"),
          ("text", Json.str "hello")]))).alerts = [] :=
  startTranscription_success_summary audioSelectedState
    (Json.obj [("status", Json.str "done"), ("text", Json.str "hello")])
    (by simp [audioSelectedState, initialState])

/-- C5: with an audio file selected, a failed transcription call reports the
"failed to process" alert and leaves `summary` unchanged, whatever its
prior value. -/
theorem startTranscription_failure_summary_unchanged (s : SessionState)
    (e : Unit) (h : s.selectedAudio ≠ "") :
    (handleTranscription s (Except.error e)).state.summary = s.summary ∧
    (handleTranscription s (Except.error e)).alerts =
      [Alert.transcribeFailed] := by
  simp [handleTranscription, Json.truthy, h]

/-- Witness for C5: scenario 4 of the spec, transport error with `summary`
still unset. -/
theorem startTranscription_failure_summary_unchanged_witness :
    (handleTranscription audioSelectedState (Except.error ())).state.summary =
      audioSelectedState.summary ∧
    (handleTranscription audioSelectedState (Except.error ())).alerts =
      [Alert.transcribeFailed] :=
  startTranscription_failure_summary_unchanged audioSelectedState ()
    (by simp [audioSelectedState, initialState])

/-- C6: from a state satisfying the ask-question guard, a successful call
whose response has a readable `answer` property stores that property into
`answer` with no alert, and a failed call shows the "failed to fetch"
alert and leaves `answer` unchanged. -/
theorem askQuestion_outcomes (s : SessionState)
    (h1 : s.summary.truthy = true) (h2 : s.question ≠ "") :
    (∀ data v, data.getProp "answer" = Except.ok v →
        (handleQuestionAnswer s (Except.ok data)).state.answer = v ∧
        (handleQuestionAnswer s (Except.ok data)).alerts = []) ∧
    (∀ e : Unit,
        (handleQuestionAnswer s (Except.error e)).state.answer = s.answer ∧
        (handleQuestionAnswer s (Except.error e)).alerts =
          [Alert.answerFailed]) := by
  have h2t : (Json.str s.question).truthy = true := by
    simp [Json.truthy, h2]
  constructor
  · intro data v hv
    simp [handleQuestionAnswer, h1, h2t, hv]
  · intro e
    simp [handleQuestionAnswer, h1, h2t]

/-- Witness for C6: scenario 3 of the spec, the backend returns
`{"answer":"Ibuprofen"}`, and the failure case from the same state. -/
theorem askQuestion_outcomes_witness :
    ((handleQuestionAnswer askReadyState
        (Except.ok (Json.obj [("answer", Json.str "Ibuprofen")]))).state.answer
          = Json.str "Ibuprofen" ∧
      (handleQuestionAnswer askReadyState
        (Except.ok (Json.obj [("answer", Json.str "Ibuprofen")]))).alerts
          = []) ∧
    ((handleQuestionAnswer askReadyState
        (Except.error ())).state.answer = askReadyState.answer ∧
      (handleQuestionAnswer askReadyState (Except.error ())).alerts =
        [Alert.answerFailed]) :=
  ⟨(askQuestion_outcomes askReadyState rfl
        (by simp [askReadyState])).1
      (Json.obj [("answer", Json.str "Ibuprofen")]) (Json.str "Ibuprofen") rfl,
   (askQuestion_outcomes askReadyState rfl
        (by simp [askReadyState])).2 ()⟩

/-- C7: every network request issued by `handleQuestionAnswer` goes to the
question-ans endpoint and its body is the single field
`question = s.question`; neither the summary nor any identifier is sent. -/
theorem askQuestion_request_shape (s : SessionState) (b : Except Unit Json)
    (r : Request) (hr : r ∈ (handleQuestionAnswer s b).requests) :
    r.url = "http://localhost:5000/question-ans" ∧
    r.body = [("question", Json.str s.question)] := by
  cases hg1 : s.summary.truthy with
  | false => simp [handleQuestionAnswer, hg1] at hr
  | true =>
      cases hg2 : (Json.str s.question).truthy with
      | false => simp [handleQuestionAnswer, hg1, hg2] at hr
      | true =>
          cases b with
          | ok data =>
              cases hp : data.getProp "answer" <;>
                · simp [handleQuestionAnswer, hg1, hg2, hp] at hr
                  simp [hr]
          | error e =>
              simp [handleQuestionAnswer, hg1, hg2] at hr
              simp [hr]

/-- Witness for C7: the request issued from a ready state. -/
theorem askQuestion_request_shape_witness :
    ({ url := "http://localhost:5000/question-ans"
       body := [("question", Json.str "What medication?")] } : Request).url =
        "http://localhost:5000/question-ans" ∧
    ({ url := "http://localhost:5000/question-ans"
       body := [("question", Json.str "What medication?")] } : Request).body =
        [("question", Json.str askReadyState.question)] :=
  askQuestion_request_shape askReadyState (Except.error ())
    { url := "http://localhost:5000/question-ans"
      body := [("question", Json.str "What medication?")] }
    (by simp [handleQuestionAnswer, askReadyState, Json.truthy])

/-- C8: two successive successful transcriptions from the same selection:
the first stores its response as `summary`, and the second overwrites it
with the latest response only. -/
theorem startTranscription_latest_wins (s : SessionState) (d1 d2 : Json)
    (h : s.selectedAudio ≠ "") :
    (handleTranscription s (Except.ok d1)).state.summary = d1 ∧
    (handleTranscription (handleTranscription s (Except.ok d1)).state
        (Except.ok d2)).state.summary = d2 := by
  simp [handleTranscription, Json.truthy, h]

/-- Witness for C8: two successful calls from the audio-selected state. -/
theorem startTranscription_latest_wins_witness :
    (handleTranscription audioSelectedState
        (Except.ok (Json.str "first"))).state.summary = Json.str "first" ∧
    (handleTranscription
        (handleTranscription audioSelectedState
          (Except.ok (Json.str "first"))).state
        (Except.ok (Json.str "second"))).state.summary = Json.str "second" :=
  startTranscription_latest_wins audioSelectedState
    (Json.str "first") (Json.str "second")
    (by simp [audioSelectedState, initialState])

/-- C9: for every session state and every backend outcome,
`handleTranscription` leaves `answer`, `question` and `selectedAudio`
unchanged. -/
theorem startTranscription_frame (s : SessionState) (b : Except Unit Json) :
    (handleTranscription s b).state.answer = s.answer ∧
    (handleTranscription s b).state.question = s.question ∧
    (handleTranscription s b).state.selectedAudio = s.selectedAudio := by
  cases hg : (Json.str s.selectedAudio).truthy with
  | false => simp [handleTranscription, hg]
  | true => cases b <;> simp [handleTranscription, hg]

/-- C10: from a state satisfying the ask-question guard, a successful call
whose response object has no `answer` field stores `undefined` into
`answer`: the source reads `response.data.answer` without any presence
check. -/
theorem askQuestion_missing_field_undefined (s : SessionState)
    (fields : List (String × Json))
    (h1 : s.summary.truthy = true) (h2 : s.question ≠ "")
    (hf : fields.lookup "answer" = none) :
    (handleQuestionAnswer s
        (Except.ok (Json.obj fields))).state.answer = Json.undefined := by
  have h2t : (Json.str s.question).truthy = true := by
    simp [Json.truthy, h2]
  simp [handleQuestionAnswer, Json.getProp, h1, h2t, hf]

/-- Witness for C10: a response `{"text":"hello"}` with no `answer` field. -/
theorem askQuestion_missing_field_undefined_witness :
    (handleQuestionAnswer askReadyState
        (Except.ok (Json.obj [("text", Json.str "hello")]))).state.answer =
      Json.undefined :=
  askQuestion_missing_field_undefined askReadyState
    [("text", Json.str "hello")] rfl (by simp [askReadyState]) rfl
